import Mathlib

/-!
Verification of the ingestion/upsert pipeline of the knowledge-base repository.

Shallow embedding of the pipeline components:
* the relevance filter `check_relevance` (src/app/controllers/utils.py),
* the Mongo task upsert `upsert` (src/app/controllers/utils.py),
* the vector-store retry client `add_documents_with_retry` and `upload`
  (src/app/models/db/astra.py),
* the Gmail collection routine `GmailService.collect` together with
  `_retrieve_content` / `_get_metadata` (src/app/services/gmail.py),
* the file upload chunk-id construction `upload` (src/app/controllers/loader.py),
* the PDF image-dominance tests `check_image` (src/app/controllers/loader.py)
  and `PDFLoader._check_image` / `PDFLoader.load` (src/app/controllers/file.py).

External collaborators (the OpenAI classifier, the OCR model, the Astra /
Mongo wire protocol, the text splitter and hashing) enter the embedding as
explicit oracle parameters; the control flow around them is translated
statement by statement from the Python source.

The file is organised as: all definitions first, then all theorems.
-/

set_option autoImplicit false

namespace KnowledgeBase

/-! ## Relevance filter — `check_relevance` (src/app/controllers/utils.py, lines 35-65)

The classifier call
`detector.invoke({"document": document, "topics": topics}).model_dump()['verdict']`
is an external LLM call.  Its behaviour on a given document and attempt is
modelled by an oracle value of type `COutcome`: the call either returns a
boolean verdict, raises `openai.RateLimitError`, or raises one of the
handled errors `ValueError`/`TypeError`/`KeyError`. -/

/-- Outcome of one `detector.invoke` attempt (external classifier oracle). -/
inductive COutcome where
  /-- the call returns, with `['verdict']` equal to `b` -/
  | verdict (b : Bool)
  /-- the call raises `openai.RateLimitError` -/
  | rateLimited
  /-- the call raises `ValueError`, `TypeError` or `KeyError` -/
  | failed
deriving DecidableEq, Repr

/-- Result of processing a single document inside `check_relevance`:
whether the document was appended to `rel_documents`, how many
`time.sleep(wait_time)` calls were executed, and how many classifier
attempts were made. -/
structure DocResult where
  included : Bool
  sleeps : Nat
  attempts : Nat
deriving DecidableEq, Repr

/-- The retry loop body of `check_relevance` for one document:
`for retry in range(max_retries)` with `max_retries = 3`.
`beh k` is the classifier outcome on attempt `k` (0-based `retry`).
On a verdict, the loop breaks (including the document iff the verdict is
positive).  On `RateLimitError` it sleeps 60s and retries while
`retry < max_retries - 1`, and on the last attempt appends the document
as fallback.  On `ValueError`/`TypeError`/`KeyError` it appends the
document and breaks. -/
def checkRelevanceDoc (maxRetries : Nat) (beh : Nat → COutcome) : DocResult :=
  go 0 maxRetries 0
where
  go (retry fuel sleeps : Nat) : DocResult :=
    match fuel with
    | 0 => { included := false, sleeps := sleeps, attempts := retry }
    | fuel + 1 =>
      match beh retry with
      | .verdict b => { included := b, sleeps := sleeps, attempts := retry + 1 }
      | .rateLimited =>
        if retry < maxRetries - 1 then
          go (retry + 1) fuel (sleeps + 1)
        else
          { included := true, sleeps := sleeps, attempts := retry + 1 }
      | .failed => { included := true, sleeps := sleeps, attempts := retry + 1 }

/-- `check_relevance(documents, topics)`: iterates over the documents in
order and keeps those whose per-document retry loop appended them to
`rel_documents`.  `beh i k` is the classifier outcome for the `i`-th
document on attempt `k`. -/
def checkRelevance {α : Type} (beh : Nat → Nat → COutcome) (documents : List α) : List α :=
  go 0 documents
where
  go {α : Type} (i : Nat) : List α → List α
    | [] => []
    | d :: ds =>
      if (checkRelevanceDoc 3 (beh i)).included then
        d :: go (i + 1) ds
      else
        go (i + 1) ds

/-- The relevance-filter stage as wired into `GmailService.collect`
(src/app/services/gmail.py, lines 471-472):
`if len(query.get("topics", [])) > 0: documents = check_relevance(documents, topics)`. -/
def relevanceStage {α : Type} (topics : List String) (beh : Nat → Nat → COutcome)
    (documents : List α) : List α :=
  if 0 < topics.length then checkRelevance beh documents else documents

/-! ## Vector-store retry client — `VectorStore.add_documents_with_retry`
(src/app/models/db/astra.py, lines 53-87)

The method loops `for attempt in range(max_retries)` (default 3) around
`self.add_documents(chunks, ids=ids)`.  On an exception from the caught
tuple `(ConnectionError, TimeoutError, DataAPIResponseException,
AstraDBVectorStoreError)` it rewrites every chunk's `page_content` with
`re.sub(r'https?://[^\s]+', '[URL]', ...)`, sleeps 45 seconds while
`attempt < max_retries - 1`, and re-raises the last error once the
retries are exhausted.  The store call itself is external; its behaviour
on each attempt (which also sees the possibly-sanitized chunk contents)
is an oracle `att`. -/

/-- Whitespace characters of Python's `\s` class (ASCII fragment; the
embedding is evaluated on ASCII payloads only). -/
def isPySpace (c : Char) : Bool :=
  c = ' ' || c = '\t' || c = '\n' || c = '\r' || c = '\x0b' || c = '\x0c'

/-- If the character list starts with the literal scheme `https://` or
`http://` (the two alternatives of the regex `https?://`), return the
number of characters consumed and the remainder. -/
def dropHttpScheme (l : List Char) : Option (Nat × List Char) :=
  if l.take 8 = "https://".data then some (8, l.drop 8)
  else if l.take 7 = "http://".data then some (7, l.drop 7)
  else none

/-- Length of the match of `https?://[^\s]+` anchored at the head of the
list (`0` when there is no match): the scheme followed by the maximal
non-empty run of non-whitespace characters, as the greedy `[^\s]+`. -/
def urlMatchLen (l : List Char) : Nat :=
  match dropHttpScheme l with
  | none => 0
  | some (k, rest) =>
    let run := (rest.takeWhile (fun c => !isPySpace c)).length
    if run = 0 then 0 else k + run

/-- Left-to-right, non-overlapping scan of `re.sub(r'https?://[^\s]+',
'[URL]', text)`: at each position, replace a match by `[URL]` and resume
after it, otherwise keep the character.  `fuel` is an upper bound on the
remaining length, making the recursion structural. -/
def urlSubGo (fuel : Nat) (cs : List Char) : List Char :=
  match fuel, cs with
  | 0, cs => cs
  | _ + 1, [] => []
  | fuel + 1, c :: rest =>
    let n := urlMatchLen (c :: rest)
    if 0 < n then "[URL]".data ++ urlSubGo fuel ((c :: rest).drop n)
    else c :: urlSubGo fuel rest

/-- `re.sub(r'https?://[^\s]+', '[URL]', s)`. -/
def sanitizeUrls (s : String) : String :=
  ⟨urlSubGo s.data.length s.data⟩

/-- A document chunk as seen by the store client; only `page_content` is
read or written by `add_documents_with_retry`. -/
structure Chunk where
  content : String
deriving DecidableEq, Repr

/-- `chunk.page_content = re.sub(url_pattern, '[URL]', chunk.page_content)`
applied to every chunk of the list. -/
def sanitizeChunks (chunks : List Chunk) : List Chunk :=
  chunks.map fun c => { content := sanitizeUrls c.content }

/-- The exception classes of the `except` tuple in
`add_documents_with_retry`: `ConnectionError`, `TimeoutError`,
`astrapy...DataAPIResponseException`,
`langchain_astradb...AstraDBVectorStoreError`. -/
inductive RetryableExc where
  | connectionError
  | timeoutError
  | dataAPIResponseException
  | astraDBVectorStoreError
deriving DecidableEq, Repr

/-- Behaviour of one `self.add_documents(chunks, ids=ids)` call (external
store): success, an exception from the caught tuple, or an exception of
any other class (which the method does not catch). -/
inductive AttemptOutcome where
  | ok
  | transientErr (e : RetryableExc)
  | uncaughtErr
deriving DecidableEq, Repr

/-- How a run of `add_documents_with_retry` ends. -/
inductive RetryOutcome where
  /-- `return True`, after `task["status"] = "succeeded"` -/
  | success
  /-- `raise e` after the last attempt failed with `e` -/
  | raised (e : RetryableExc)
  /-- an exception outside the caught tuple propagated immediately -/
  | uncaught
  /-- the `for` loop ran zero iterations (only possible for `max_retries = 0`) -/
  | fell
deriving DecidableEq, Repr

/-- Observable record of a run of `add_documents_with_retry`: final
outcome, the chunk lists passed to the successive `add_documents`
attempts (in order), and the number of `time.sleep(45)` calls. -/
structure RetryRun where
  result : RetryOutcome
  inputs : List (List Chunk)
  sleeps : Nat
deriving DecidableEq, Repr

/-- `add_documents_with_retry(self, chunks, ids, task, max_retries=3)`.
`att k cs` is the store's behaviour on the `k`-th attempt when passed
chunk contents `cs`. -/
def addDocumentsWithRetry (att : Nat → List Chunk → AttemptOutcome)
    (chunks : List Chunk) (maxRetries : Nat) : RetryRun :=
  go 0 maxRetries chunks [] 0
where
  go (attempt fuel : Nat) (chunks : List Chunk) (inputsRev : List (List Chunk))
      (sleeps : Nat) : RetryRun :=
    match fuel with
    | 0 => { result := .fell, inputs := inputsRev.reverse, sleeps := sleeps }
    | fuel + 1 =>
      let inputsRev := chunks :: inputsRev
      match att attempt chunks with
      | .ok => { result := .success, inputs := inputsRev.reverse, sleeps := sleeps }
      | .uncaughtErr => { result := .uncaught, inputs := inputsRev.reverse, sleeps := sleeps }
      | .transientErr e =>
        let chunks := sanitizeChunks chunks
        if attempt < maxRetries - 1 then
          go (attempt + 1) fuel chunks inputsRev (sleeps + 1)
        else
          { result := .raised e, inputs := inputsRev.reverse, sleeps := sleeps }

/-! ## Task store — `upsert` (src/app/controllers/utils.py, lines 67-116)

`upsert(_id, element, service, name)` addresses one Mongo document and one
of its array fields (`"queries"` for `name == "user"` with max size 10,
`"tasks"` otherwise with max size 100).  It first issues an `update_one`
on the filter `{_id, f"{field}.id": element["id"]}` with
`$set {f"{field}.$.{k}": v for k != "id"}` (positional update of the first
array element whose `id` matches); when nothing matched it appends the
element with `$push {field: {$each: [element], $slice: -size}}` keeping
the last `size` elements.  The embedding models one document's array. -/

/-- One element of the array field (a task or query record).  A field set
to `none` is a key absent from the Python dict. -/
structure TaskElem where
  id : String
  status : Option String
  error : Option String
  createdTime : Option String
  updatedTime : Option String
deriving DecidableEq, Repr

/-- `$set` of every key of `elem` except `id` onto `old` (keys absent from
`elem` are left untouched; `id` is never written). -/
def setFields (old elem : TaskElem) : TaskElem :=
  { id := old.id
    status := match elem.status with | some v => some v | none => old.status
    error := match elem.error with | some v => some v | none => old.error
    createdTime := match elem.createdTime with | some v => some v | none => old.createdTime
    updatedTime := match elem.updatedTime with | some v => some v | none => old.updatedTime }

/-- Positional (`$`) update: rewrite the first array element whose `id`
equals `elem.id`. -/
def updateFirst (arr : List TaskElem) (elem : TaskElem) : List TaskElem :=
  match arr with
  | [] => []
  | e :: es => if e.id = elem.id then setFields e elem :: es else e :: updateFirst es elem

/-- `upsert`: stamps `createdTime` (only when absent) and `updatedTime` on
the element, updates the first array element with a matching `id`, and
otherwise appends, slicing the array to its last `size` elements.
`now` is `datetime.now().strftime("%Y/%m/%d %H:%M:%S")`. -/
def upsertArr (arr : List TaskElem) (elem : TaskElem) (now : String) (size : Nat) :
    List TaskElem :=
  let elem := { elem with
    createdTime := some (elem.createdTime.getD now), updatedTime := some now }
  if arr.any (fun e => e.id = elem.id) then
    updateFirst arr elem
  else
    let pushed := arr ++ [elem]
    pushed.drop (pushed.length - size)

/-! ## Gmail ingestion — `GmailService.collect`
(src/app/services/gmail.py, lines 256-516)

`collect` marks the task `"in progress"`, iterates over the messages
returned by `_search`, extracts documents with `_retrieve_content` /
`_get_metadata`, optionally filters them by topic relevance, and for a
non-empty document list first deletes the previous generation with
`astra_collection.delete_many({"$and": [{"metadata.threadId": ...},
{"metadata.type": "gmail"}, {"metadata.userId": self.email}]})` and then
calls `vstore.upload(documents, self.task)` (astra.py `upload`: split the
documents, build ids `f"{chunk.metadata['id']}-{index}"` over the global
chunk enumeration, and add them to the store, which overwrites documents
with matching ids).  A store exception aborts the loop; collect's
`except` clauses mark the task `"failed"` and re-raise.  The
text splitter (`sp`) and the Gmail wire data are oracle inputs. -/

/-- Vector-store document metadata for the Gmail pipeline.  A `none` field
is a key absent from the metadata dict.  Modelled keys: the three read by
the dedup delete filter (`threadId`, `type` — field `mtype` —, `userId`),
`mimeType` (read by the text-part dedup check in `_retrieve_content`),
`attachment`, and the `id` used for chunk ids.  The remaining keys set by
`_get_metadata` (subject, from, to, cc, dates, ...) are read by no
embedded operation. -/
structure GMeta where
  threadId : Option String
  mtype : Option String
  userId : Option String
  mimeType : Option String
  attachment : Option String
  id : String
deriving DecidableEq, Repr

/-- A langchain `Document` produced by `_retrieve_content`. -/
structure GDoc where
  content : String
  meta : GMeta
deriving DecidableEq, Repr

/-- A calendar event of an `.ics` attachment (pre-parsed by the `ics`
library; only the fields used for the page content are modelled). -/
structure GEvent where
  name : String
  description : String
  beginT : String
  endT : String
deriving DecidableEq, Repr

/-- One part of a multipart Gmail message, as consumed by
`_retrieve_content`:  a `text/plain` / `text/html` body part, an
`application/ics` attachment (with the `sha256` hex digest of its bytes
precomputed, since hashing raw attachment bytes is an external library
call), or another attachment whose loader produced a list of page texts. -/
inductive GPart where
  | text (mime : String) (body : String)
  | ics (filename : String) (fileHash : String) (events : List GEvent)
  | attach (mime : String) (fileHash : String) (pages : List String)
deriving DecidableEq, Repr

/-- A Gmail message as consumed by `collect` (already fetched and parsed;
a single-body `text/plain` / `text/html` message is represented as one
`GPart.text`, which produces the same document as the corresponding
non-multipart branch of `_retrieve_content`). -/
structure GMsg where
  threadId : String
  msgId : String
  parts : List GPart
deriving DecidableEq, Repr

/-- The page content built for one calendar event
(`f"Event: ...\nDescription: ...\nStart: ...\nEnd: ..."`). -/
def eventContent (ev : GEvent) : String :=
  "Event: " ++ ev.name ++ "\n" ++ "Description: " ++ ev.description ++ "\n" ++
    "Start: " ++ ev.beginT ++ "\n" ++ "End: " ++ ev.endT

/-- Documents appended for the pages of a non-ics attachment: each page's
metadata is filtered to `["ext", "page", "title", "attachId"]` and then
`update`d with the base metadata (so it carries `threadId`/`type`/`userId`),
with `id = f"{msg_id}-{sha256(file_data)}-{index}"`. -/
def attachDocs (threadId profileEmail msgId mime fileHash : String)
    (pages : List String) : List GDoc :=
  go 0 pages
where
  go (i : Nat) : List String → List GDoc
    | [] => []
    | p :: ps =>
      { content := p
        meta := { threadId := some threadId, mtype := some "gmail",
                  userId := some profileEmail, mimeType := some mime,
                  attachment := none, id := msgId ++ "-" ++ fileHash ++ "-" ++ toString i } } ::
        go (i + 1) ps

/-- `_retrieve_content(msg, metadata, message)` with
`metadata = _get_metadata(msg)`:  `msg_id = f"{threadId}-{id}"`; a
`text/plain`/`text/html` part is appended only when no already-collected
document has the same `mimeType`, with metadata
`{**metadata, "mimeType": mime, "id": msg_id}`; an `application/ics`
attachment contributes one document per event with a fresh metadata dict
`{"attachment", "mimeType", ..., "id": f"{msg_id}-{filename}-{sha256}"}`
(note: without `threadId`/`type`/`userId`); any other attachment
contributes its pages via `attachDocs`.  `profileEmail` is
`self.service.users().getProfile(userId="me").execute()["emailAddress"]`,
written by `_get_metadata` into `metadata["userId"]`. -/
def retrieveContent (profileEmail : String) (m : GMsg) : List GDoc :=
  go (m.parts) []
where
  msgId := m.threadId ++ "-" ++ m.msgId
  go : List GPart → List GDoc → List GDoc
    | [], docs => docs
    | .text mime body :: rest, docs =>
      if (mime = "text/plain" ∨ mime = "text/html") ∧
          docs.all (fun d => d.meta.mimeType ≠ some mime) then
        go rest (docs ++
          [{ content := body
             meta := { threadId := some m.threadId, mtype := some "gmail",
                       userId := some profileEmail, mimeType := some mime,
                       attachment := none, id := msgId } }])
      else
        go rest docs
    | .ics filename fileHash events :: rest, docs =>
      go rest (docs ++ events.map (fun ev =>
        { content := eventContent ev
          meta := { threadId := none, mtype := none, userId := none,
                    mimeType := some "application/ics", attachment := some filename,
                    id := msgId ++ "-" ++ filename ++ "-" ++ fileHash } }))
    | .attach mime fileHash pages :: rest, docs =>
      go rest (docs ++ attachDocs m.threadId profileEmail msgId mime fileHash pages)

/-- One document stored in the Astra collection: its `_id` and the
langchain document (page content and metadata). -/
structure VEntry where
  id : String
  content : String
  meta : GMeta
deriving DecidableEq, Repr

/-- The dedup delete filter of `collect`:
`{"$and": [{"metadata.threadId": threadId}, {"metadata.type": "gmail"},
{"metadata.userId": email}]}` evaluated on a stored document's metadata. -/
def matchesDedup (threadId email : String) (m : GMeta) : Bool :=
  m.threadId = some threadId && m.mtype = some "gmail" && m.userId = some email

/-- `astra_collection.delete_many` with the dedup filter. -/
def deleteMany (threadId email : String) (store : List VEntry) : List VEntry :=
  store.filter (fun e => !(matchesDedup threadId email e.meta))

/-- Adding one document with an explicit id to the vector store:
Astra upserts by `_id`, so an existing document with the same id is
overwritten. -/
def addDoc (store : List VEntry) (e : VEntry) : List VEntry :=
  store.filter (fun x => x.id ≠ e.id) ++ [e]

/-- `add_documents(chunks, ids=ids)`: upsert every chunk by its id. -/
def addDocs (store : List VEntry) (es : List VEntry) : List VEntry :=
  es.foldl addDoc store

/-- The chunk/id construction of `VectorStore.upload`
(src/app/models/db/astra.py, lines 108-121): split every document (the
splitter `sp` is the external `RecursiveCharacterTextSplitter`, which
copies the document's metadata onto each chunk), then
`for index, chunk in enumerate(chunks): ids.append(f"{chunk.metadata['id']}-{index}")`
over the global chunk enumeration. -/
def uploadEntries (sp : String → List String) (docs : List GDoc) : List VEntry :=
  go 0 (docs.flatMap (fun d => (sp d.content).map (fun c => (c, d.meta))))
where
  go (i : Nat) : List (String × GMeta) → List VEntry
    | [] => []
    | (c, m) :: rest => { id := m.id ++ "-" ++ toString i, content := c, meta := m } :: go (i + 1) rest

/-- The delete-then-write step of `collect` for one message whose (possibly
relevance-filtered) document list is non-empty: `delete_many` with the
dedup filter, then `vstore.upload`. -/
def ingestDocs (sp : String → List String) (threadId email : String)
    (docs : List GDoc) (store : List VEntry) : List VEntry :=
  addDocs (deleteMany threadId email store) (uploadEntries sp docs)

/-- Exception classes relevant to the `try/except` structure of `collect`:
the classes its handlers name, plus `otherExc` for any class outside them.
`dataAPIResponseException` is astrapy's `DataAPIResponseException`, whose
base `DataAPIException` derives from `ValueError`, so it is matched by the
`except (ValueError, TypeError)` clauses.  (The base class of
`langchain_astradb`'s `AstraDBVectorStoreError` is library code outside
this repository and is not modelled.) -/
inductive UploadExc where
  | connectionError
  | timeoutError
  | valueError
  | typeError
  | keyError
  | indexError
  | osError
  | dataAPIResponseException
  | otherExc
deriving DecidableEq, Repr

/-- Whether the exception is matched by `collect`'s outer
`except (ValueError, TypeError, KeyError, IndexError, ConnectionError,
TimeoutError, OSError, IOError)` (src/app/services/gmail.py, lines
507-508).  `IOError` is an alias of `OSError` in Python 3, and
`ConnectionError`/`TimeoutError` are subclasses of `OSError`. -/
def caughtByCollect : UploadExc → Bool
  | .otherExc => false
  | _ => true

/-- Environment of one `collect` run: the external inputs and
collaborator behaviours. -/
structure CollectEnv where
  /-- the text splitter used by `vstore.upload` (external langchain code) -/
  sp : String → List String
  /-- `query.get("topics", [])` -/
  topics : List String
  /-- classifier oracle for `check_relevance` -/
  beh : Nat → Nat → COutcome
  /-- `self.email` — used in the dedup delete filter and the task upserts -/
  email : String
  /-- the Gmail profile's `emailAddress` — written into `metadata["userId"]` -/
  profileEmail : String
  /-- the messages yielded by `self._search(query, ...)` -/
  msgs : List GMsg
  /-- behaviour of `vstore.upload`'s store write for the `i`-th message:
  `none` = success, `some e` = it raises `e` -/
  uploadErr : Nat → Option UploadExc
  /-- vector-store contents when the run starts -/
  store0 : List VEntry

/-- Observable result of a `collect` run. -/
structure CollectRes where
  /-- final vector-store contents -/
  store : List VEntry
  /-- the `task["status"]` values passed to `upsert(self.email, self.task)`, in order -/
  statuses : List String
  /-- final in-memory `task["status"]` -/
  taskStatus : String
  /-- final `task["error"]` (`collect` never writes this key) -/
  taskError : Option String
  /-- the exception propagating out of `collect`, if any -/
  raised : Option UploadExc
  /-- final `messages_processed` counter -/
  processed : Nat
deriving Repr

/-- The message loop of `collect`: per message, retrieve the documents,
increment the counter, apply the relevance stage, and for a non-empty
document list run `delete_many` followed by the store write; a store
exception ends the loop with the store in its post-delete state (the
delete and the write are not transactional). -/
def collectLoop (env : CollectEnv) :
    Nat → List GMsg → List VEntry → Nat → (List VEntry × Option UploadExc × Nat)
  | _, [], store, processed => (store, none, processed)
  | i, m :: rest, store, processed =>
    let docs := retrieveContent env.profileEmail m
    let processed := processed + 1
    let docs := relevanceStage env.topics env.beh docs
    if 0 < docs.length then
      match env.uploadErr i with
      | some e => (deleteMany m.threadId env.email store, some e, processed)
      | none => collectLoop env (i + 1) rest (ingestDocs env.sp m.threadId env.email docs store)
          processed
    else
      collectLoop env (i + 1) rest store processed

/-- The post-loop part of `collect`: on a normal loop end persist
`"completed"`; on an exception matched by the outer `except` clauses
persist `"failed"` (without writing `task["error"]`) and re-raise; an
unmatched exception propagates with no further task write. -/
def finishCollect : List VEntry × Option UploadExc × Nat → CollectRes
  | (store, none, processed) =>
    { store := store, statuses := ["in progress", "completed"], taskStatus := "completed",
      taskError := none, raised := none, processed := processed }
  | (store, some e, processed) =>
    if caughtByCollect e then
      { store := store, statuses := ["in progress", "failed"], taskStatus := "failed",
        taskError := none, raised := some e, processed := processed }
    else
      { store := store, statuses := ["in progress"], taskStatus := "in progress",
        taskError := none, raised := some e, processed := processed }

/-- `GmailService.collect(query)`:  persist `"in progress"`, run the
message loop, and finish as `finishCollect` describes. -/
def collect (env : CollectEnv) : CollectRes :=
  finishCollect (collectLoop env 0 env.msgs env.store0 0)

/-- The full persisted status trace of a Gmail task: `trigger()`
(src/app/services/gmail.py, lines 583-590) creates the task with
`"status": "pending"` and `GmailService.__init__` persists it via
`upsert(self.email, self.task)`, after which `collect` persists the
statuses of its own run. -/
def gmailTaskStatusTrace (env : CollectEnv) : List String :=
  "pending" :: (collect env).statuses

/-! ### Concrete fixtures for the claim C1 scenarios -/

/-- A degenerate splitter keeping each document as one chunk (the real
splitter is external; any splitter is allowed by the C1 theorems). -/
def c1Sp : String → List String := fun s => [s]

/-- Metadata of the previous generation's chunks in the C1 witness. -/
def c1OldMeta : GMeta where
  threadId := some "t"
  mtype := some "gmail"
  userId := some "u@x"
  mimeType := some "text/plain"
  attachment := none
  id := "t-m1"

/-- A previous generation of 3 stored chunks for thread `t`. -/
def c1OldStore : List VEntry :=
  [{ id := "t-m1-0", content := "a", meta := c1OldMeta },
   { id := "t-m1-1", content := "b", meta := c1OldMeta },
   { id := "t-m1-2", content := "c", meta := c1OldMeta }]

/-- A calendar event for the C1 counterexample's `.ics` attachment. -/
def c1Event : GEvent where
  name := "Standup"
  description := "daily"
  beginT := "09:00"
  endT := "09:15"

/-- Generation-1 latest message of thread `t`: a text body plus an `.ics`
attachment. -/
def c1Msg1 : GMsg where
  threadId := "t"
  msgId := "m1"
  parts := [.text "text/plain" "hello", .ics "cal.ics" "h1" [c1Event]]

/-- Generation-2 latest message of thread `t`: plain text only. -/
def c1Msg2 : GMsg where
  threadId := "t"
  msgId := "m2"
  parts := [.text "text/plain" "goodbye"]

/-- The generation-2 document list. -/
def c1NewDocs : List GDoc := retrieveContent "u@x" c1Msg2

/-- First `collect` run of the C1 counterexample (ingests `c1Msg1` into an
empty store). -/
def c1EnvFirst : CollectEnv where
  sp := c1Sp
  topics := []
  beh := fun _ _ => .verdict true
  email := "u@x"
  profileEmail := "u@x"
  msgs := [c1Msg1]
  uploadErr := fun _ => none
  store0 := []

/-- Second `collect` run of the C1 counterexample (re-ingests thread `t`,
whose latest message is now `c1Msg2`, into the store left by the first
run). -/
def c1EnvSecond : CollectEnv where
  sp := c1Sp
  topics := []
  beh := fun _ _ => .verdict true
  email := "u@x"
  profileEmail := "u@x"
  msgs := [c1Msg2]
  uploadErr := fun _ => none
  store0 := (collect c1EnvFirst).store

/-! ### Concrete fixture for the claim C3 scenario -/

/-- A plain-text message for the C3 scenario. -/
def c3Msg : GMsg where
  threadId := "t"
  msgId := "m1"
  parts := [.text "text/plain" "hello"]

/-- A `collect` run whose store write raises `ConnectionError`. -/
def c3Env : CollectEnv where
  sp := fun s => [s]
  topics := []
  beh := fun _ _ => .verdict true
  email := "u@x"
  profileEmail := "u@x"
  msgs := [c3Msg]
  uploadErr := fun _ => some .connectionError
  store0 := []

/-! ## PDF image dominance — `check_image` (src/app/controllers/loader.py,
lines 59-84), `PDFLoader._check_image` and `PDFLoader.load`
(src/app/controllers/file.py, lines 84-138)

Both functions inspect the page's `/Resources` → `/XObject` dictionary.
`loader.py`'s `check_image` returns `True` as soon as any XObject has
`/Subtype == "/Image"`.  `file.py`'s `_check_image` additionally computes
`img_area = /Width * /Height` and, when a `page_area` is supplied (as
`PDFLoader.load` always does, passing
`float(page.mediabox.width * page.mediabox.height)`), requires
`img_area / page_area >= area_threshold` (default `0.7`).  Numeric values
are modelled as rationals; Python computes in binary floating point, which
agrees with ℚ on the comparisons of the concrete scenarios proved here
(they are far from the threshold boundary). -/

/-- An XObject of a PDF page's resources (`/Subtype`, `/Width`,
`/Height`). -/
structure XObject where
  subtype : String
  width : ℚ
  height : ℚ
deriving DecidableEq, Repr

/-- The `/Resources` dictionary of a page: its optional `/XObject`
entry. -/
structure PdfResources where
  xobjects : Option (List XObject)
deriving DecidableEq, Repr

/-- A PDF page as read by the two image checks and by `PDFLoader.load`:
optional `/Resources`, the mediabox dimensions, and the text that
`page.extract_text()` would return. -/
structure PdfPage where
  resources : Option PdfResources
  mediaboxWidth : ℚ
  mediaboxHeight : ℚ
  nativeText : String
deriving DecidableEq, Repr

/-- The XObject list of a page (empty when `/Resources` or `/XObject` is
absent); used to state the image-dominance characterisations. -/
def pageXObjects (p : PdfPage) : List XObject :=
  match p.resources with
  | none => []
  | some r => r.xobjects.getD []

/-- `check_image(page)` of src/app/controllers/loader.py: `True` iff the
page has any XObject with `/Subtype == "/Image"` — no area test at all. -/
def loaderCheckImage (p : PdfPage) : Bool :=
  match p.resources with
  | none => false
  | some r =>
    match r.xobjects with
    | none => false
    | some xs => xs.any (fun o => o.subtype = "/Image")

/-- `PDFLoader._check_image(page, page_area, area_threshold)` of
src/app/controllers/file.py: returns `True` at the first image XObject
whose `area_ratio = img_area / page_area` satisfies
`area_ratio >= area_threshold`; without a `page_area` any image
suffices. -/
def pdfLoaderCheckImage (p : PdfPage) (pageArea : Option ℚ) (areaThreshold : ℚ) : Bool :=
  match p.resources with
  | none => false
  | some r =>
    match r.xobjects with
    | none => false
    | some xs =>
      xs.any (fun o =>
        o.subtype = "/Image" &&
          (match pageArea with
           | some area => decide (o.width * o.height / area ≥ areaThreshold)
           | none => true))

/-- A document built by `PDFLoader.load`: page content plus the 1-based
page number metadata. -/
structure LDoc where
  content : String
  page : Nat
deriving DecidableEq, Repr

/-- `PDFLoader.load()` over the already-parsed pages: per page, test
`_check_image(page, page_area=float(page.mediabox.width * page.mediabox.height))`
(threshold left at its default `0.7`); when image-dominant, rasterize and
delegate to the OCR model (`ocr i` is the text the external vision call
returns for page index `i`), otherwise use `page.extract_text()`.
Returns the documents and the number of OCR calls made. -/
def pdfLoad (ocr : Nat → String) (pages : List PdfPage) : List LDoc × Nat :=
  go 0 pages
where
  go (i : Nat) : List PdfPage → List LDoc × Nat
    | [] => ([], 0)
    | p :: ps =>
      if pdfLoaderCheckImage p (some (p.mediaboxWidth * p.mediaboxHeight)) ((7 : ℚ) / 10) then
        let r := go (i + 1) ps
        ({ content := ocr i, page := i + 1 } :: r.1, r.2 + 1)
      else
        let r := go (i + 1) ps
        ({ content := p.nativeText, page := i + 1 } :: r.1, r.2)

/-! ### Concrete fixtures for the claim C6 scenarios -/

/-- A page whose only image covers `1/10000` of the page area. -/
def c6SmallImagePage : PdfPage where
  resources := some { xobjects := some [{ subtype := "/Image", width := 1, height := 1 }] }
  mediaboxWidth := 100
  mediaboxHeight := 100
  nativeText := "mostly text"

/-- Page 1 of the C6 scenario: a single image covering 90% of the page. -/
def c6ImagePage : PdfPage where
  resources := some { xobjects := some [{ subtype := "/Image", width := 90, height := 100 }] }
  mediaboxWidth := 100
  mediaboxHeight := 100
  nativeText := ""

/-- Page 2 of the C6 scenario: plain text, no XObjects. -/
def c6TextPage : PdfPage where
  resources := some { xobjects := none }
  mediaboxWidth := 100
  mediaboxHeight := 100
  nativeText := "plain text page"

/-! ## File-upload chunk ids — `upload` (src/app/controllers/loader.py,
lines 260-317)

For every source document, `upload` splits it
(`text_splitter.split_documents([doc])`, per-document `enumerate`), sets
`metadata["page"]` from `page_label` when present, computes
`attachment = metadata["source"].replace("\x7bFOLDER\x7d/", "")`,
`title`/`ext` from its first/last dot-component, and
`metadata["id"] = sha256(email + attachment).hexdigest()`; the chunk id is
`f"{id}-{page}-{index}"` when a page is present and `f"{id}-{index}"`
otherwise.  The hash (`h`) and splitter (`sp`) are external calls,
passed as oracle parameters. -/

/-- A source document entering `upload`: extracted content, the `source`
metadata (file name, possibly `\x7bFOLDER\x7d/`-prefixed), and the page
number when the loader provided one (`page_label`, parsed by `int`). -/
structure SrcDoc where
  content : String
  source : String
  page : Option Nat
deriving DecidableEq, Repr

/-- A processed chunk as appended to `documents` by `upload`: the filtered
metadata (`page`, `title`, `ext`) plus the generated `id`, `userId` and
`type`. -/
structure FChunk where
  content : String
  page : Option Nat
  title : String
  ext : String
  id : String
  userId : String
deriving DecidableEq, Repr

/-- Python's `str.replace` for a non-empty pattern: replace every
non-overlapping occurrence, scanning left to right.  `fuel` bounds the
remaining length, making the recursion structural. -/
def replaceAllGo (pat rep : List Char) : Nat → List Char → List Char
  | 0, cs => cs
  | _ + 1, [] => []
  | fuel + 1, c :: rest =>
    if (c :: rest).take pat.length = pat then
      rep ++ replaceAllGo pat rep fuel ((c :: rest).drop pat.length)
    else c :: replaceAllGo pat rep fuel rest

/-- Python's `s.replace(pat, rep)` (the embedding is only used with the
non-empty pattern `"\x7bFOLDER\x7d/"`). -/
def replaceAll (s pat rep : String) : String :=
  ⟨replaceAllGo pat.data rep.data s.data.length s.data⟩

/-- The attachment name: `metadata["source"].replace("\x7bFOLDER\x7d/", "")`. -/
def attachmentName (d : SrcDoc) : String :=
  replaceAll d.source "\x7bFOLDER\x7d/" ""

/-- The chunk/id pairs of one document: per-document `enumerate` over the
split chunks, starting at index `i`. -/
def loaderDocEntries (h : String → String) (email : String) (d : SrcDoc) :
    Nat → List String → List (FChunk × String)
  | _, [] => []
  | i, t :: ts =>
    ({ content := t, page := d.page,
       title := (((attachmentName d).splitOn ".").headD ""),
       ext := (((attachmentName d).splitOn ".").getLastD ""),
       id := h (email ++ attachmentName d), userId := email },
      match d.page with
      | some p => h (email ++ attachmentName d) ++ "-" ++ toString p ++ "-" ++ toString i
      | none => h (email ++ attachmentName d) ++ "-" ++ toString i) ::
      loaderDocEntries h email d (i + 1) ts

/-- `upload(docs, email, task)`'s `documents`/`ids` construction over all
source documents, in order. -/
def loaderUpload (h : String → String) (sp : String → List String) (email : String)
    (docs : List SrcDoc) : List (FChunk × String) :=
  docs.flatMap (fun d => loaderDocEntries h email d 0 (sp d.content))

/-- Transcription of the spec's id scheme (§4.4), kept separate from the
code embedding for the refinement proof: Chunk ID = `baseHash + "-" +
chunkIndex`, or `baseHash + "-" + page + "-" + chunkIndex` when the
document carries a page number, with `baseHash` the hash of the stable key
(the userId concatenated with the attachment name). -/
def specChunkId (h : String → String) (userId attachmentName : String)
    (page : Option Nat) (chunkIndex : Nat) : String :=
  match page with
  | some p => h (userId ++ attachmentName) ++ "-" ++ toString p ++ "-" ++ toString chunkIndex
  | none => h (userId ++ attachmentName) ++ "-" ++ toString chunkIndex

end KnowledgeBase

namespace KnowledgeBase

/-! ## Theorems -/

/-- Helper: the inner retry loop of `check_relevance` always yields a
subsequence of the input document list (each occurrence kept or dropped,
order preserved). -/
theorem checkRelevance_go_sublist {α : Type} (beh : Nat → Nat → COutcome) :
    ∀ (documents : List α) (i : Nat),
      List.Sublist (checkRelevance.go beh i documents) documents := by
  intro documents
  induction documents with
  | nil => intro i; simp [checkRelevance.go]
  | cons d ds ih =>
    intro i
    rw [checkRelevance.go]
    by_cases h : (checkRelevanceDoc 3 (beh i)).included = true
    · simp only [h, if_true]
      exact (ih (i + 1)).cons₂ d
    · simp only [h, if_false]
      exact (ih (i + 1)).cons d

/-- Claim C5: for every document processed by `check_relevance`, the
classifier is attempted at most 3 times; every attempt except the last one
ended in a rate-limit error and caused exactly one 60-second sleep (so the
sleep count is the attempt count minus one — in particular a classifier
raising `RateLimitError` twice and then succeeding incurs exactly 2 sleeps
and the final verdict decides inclusion); after 3 rate-limited attempts the
document is included anyway; on a `ValueError`/`TypeError`/`KeyError` the
document is included immediately with no further attempts; and a document
is dropped only when the classifier actually returned a negative verdict. -/
theorem check_relevance_retry_policy (beh : Nat → COutcome) :
    (checkRelevanceDoc 3 beh).attempts ≤ 3 ∧
    (checkRelevanceDoc 3 beh).sleeps = (checkRelevanceDoc 3 beh).attempts - 1 ∧
    (∀ b : Bool, beh 0 = .rateLimited → beh 1 = .rateLimited → beh 2 = .verdict b →
      checkRelevanceDoc 3 beh = { included := b, sleeps := 2, attempts := 3 }) ∧
    (beh 0 = .rateLimited → beh 1 = .rateLimited → beh 2 = .rateLimited →
      checkRelevanceDoc 3 beh = { included := true, sleeps := 2, attempts := 3 }) ∧
    (∀ k, k < 3 → (∀ j, j < k → beh j = .rateLimited) → beh k = .failed →
      checkRelevanceDoc 3 beh = { included := true, sleeps := k, attempts := k + 1 }) ∧
    ((checkRelevanceDoc 3 beh).included = false → ∃ k, k < 3 ∧ beh k = .verdict false) := by
  have key : ∀ c0 : COutcome, beh 0 = c0 →
      checkRelevanceDoc 3 beh =
        match c0 with
        | .verdict b => { included := b, sleeps := 0, attempts := 1 }
        | .failed => { included := true, sleeps := 0, attempts := 1 }
        | .rateLimited =>
          match beh 1 with
          | .verdict b => { included := b, sleeps := 1, attempts := 2 }
          | .failed => { included := true, sleeps := 1, attempts := 2 }
          | .rateLimited =>
            match beh 2 with
            | .verdict b => { included := b, sleeps := 2, attempts := 3 }
            | .failed => { included := true, sleeps := 2, attempts := 3 }
            | .rateLimited => { included := true, sleeps := 2, attempts := 3 } := by
    intro c0 h0
    cases c0 with
    | verdict b => simp [checkRelevanceDoc, checkRelevanceDoc.go, h0]
    | failed => simp [checkRelevanceDoc, checkRelevanceDoc.go, h0]
    | rateLimited =>
      cases h1 : beh 1 with
      | verdict b => simp [checkRelevanceDoc, checkRelevanceDoc.go, h0, h1]
      | failed => simp [checkRelevanceDoc, checkRelevanceDoc.go, h0, h1]
      | rateLimited =>
        cases h2 : beh 2 with
        | verdict b => simp [checkRelevanceDoc, checkRelevanceDoc.go, h0, h1, h2]
        | failed => simp [checkRelevanceDoc, checkRelevanceDoc.go, h0, h1, h2]
        | rateLimited => simp [checkRelevanceDoc, checkRelevanceDoc.go, h0, h1, h2]
  have hres := key (beh 0) rfl
  refine ⟨?_, ?_, ?_, ?_, ?_, ?_⟩
  · rw [hres]
    cases h0 : beh 0 <;> cases h1 : beh 1 <;> cases h2 : beh 2 <;> simp
  · rw [hres]
    cases h0 : beh 0 <;> cases h1 : beh 1 <;> cases h2 : beh 2 <;> simp
  · intro b h0 h1 h2
    rw [h0, h1, h2] at hres
    exact hres
  · intro h0 h1 h2
    rw [h0, h1, h2] at hres
    exact hres
  · intro k hk hprev hfail
    interval_cases k
    · rw [hfail] at hres; exact hres
    · rw [hprev 0 (by omega), hfail] at hres; exact hres
    · rw [hprev 0 (by omega), hprev 1 (by omega), hfail] at hres; exact hres
  · intro hdrop
    cases h0 : beh 0 with
    | verdict b =>
      rw [h0] at hres
      rw [hres] at hdrop
      exact ⟨0, by omega, by rw [h0]; cases b <;> simp_all⟩
    | failed => rw [h0] at hres; rw [hres] at hdrop; simp at hdrop
    | rateLimited =>
      rw [h0] at hres
      cases h1 : beh 1 with
      | verdict b =>
        rw [h1] at hres
        rw [hres] at hdrop
        exact ⟨1, by omega, by rw [h1]; cases b <;> simp_all⟩
      | failed => rw [h1] at hres; rw [hres] at hdrop; simp at hdrop
      | rateLimited =>
        rw [h1] at hres
        cases h2 : beh 2 with
        | verdict b =>
          rw [h2] at hres
          rw [hres] at hdrop
          exact ⟨2, by omega, by rw [h2]; cases b <;> simp_all⟩
        | failed => rw [h2] at hres; rw [hres] at hdrop; simp at hdrop
        | rateLimited => rw [h2] at hres; rw [hres] at hdrop; simp at hdrop

/-- Witness for C5: a classifier raising `RateLimitError` twice and then
returning a positive verdict causes exactly 2 sleeps, 3 attempts, and the
final verdict decides inclusion. -/
theorem check_relevance_retry_policy_witness :
    checkRelevanceDoc 3 (fun k => if k < 2 then .rateLimited else .verdict true) =
      { included := true, sleeps := 2, attempts := 3 } :=
  (check_relevance_retry_policy
    (fun k => if k < 2 then .rateLimited else .verdict true)).2.2.1
    true (by decide) (by decide) (by decide)

/-- Helper for C4: explicit unfolding of `add_documents_with_retry` with the
default `max_retries = 3`, by cases on the store's behaviour on each of the
three attempts.  The second and third attempts see the URL-sanitized chunk
contents produced by the failure handler of the previous attempt. -/
theorem addDocumentsWithRetry_eq (att : Nat → List Chunk → AttemptOutcome)
    (chunks : List Chunk) :
    addDocumentsWithRetry att chunks 3 =
      match att 0 chunks with
      | .ok => { result := .success, inputs := [chunks], sleeps := 0 }
      | .uncaughtErr => { result := .uncaught, inputs := [chunks], sleeps := 0 }
      | .transientErr _ =>
        match att 1 (sanitizeChunks chunks) with
        | .ok => { result := .success, inputs := [chunks, sanitizeChunks chunks], sleeps := 1 }
        | .uncaughtErr =>
          { result := .uncaught, inputs := [chunks, sanitizeChunks chunks], sleeps := 1 }
        | .transientErr _ =>
          match att 2 (sanitizeChunks (sanitizeChunks chunks)) with
          | .ok =>
            { result := .success,
              inputs := [chunks, sanitizeChunks chunks, sanitizeChunks (sanitizeChunks chunks)],
              sleeps := 2 }
          | .uncaughtErr =>
            { result := .uncaught,
              inputs := [chunks, sanitizeChunks chunks, sanitizeChunks (sanitizeChunks chunks)],
              sleeps := 2 }
          | .transientErr e =>
            { result := .raised e,
              inputs := [chunks, sanitizeChunks chunks, sanitizeChunks (sanitizeChunks chunks)],
              sleeps := 2 } := by
  cases h0 : att 0 chunks with
  | ok => simp [addDocumentsWithRetry, addDocumentsWithRetry.go, h0]
  | uncaughtErr => simp [addDocumentsWithRetry, addDocumentsWithRetry.go, h0]
  | transientErr e0 =>
    cases h1 : att 1 (sanitizeChunks chunks) with
    | ok => simp [addDocumentsWithRetry, addDocumentsWithRetry.go, h0, h1]
    | uncaughtErr => simp [addDocumentsWithRetry, addDocumentsWithRetry.go, h0, h1]
    | transientErr e1 =>
      cases h2 : att 2 (sanitizeChunks (sanitizeChunks chunks)) with
      | ok => simp [addDocumentsWithRetry, addDocumentsWithRetry.go, h0, h1, h2]
      | uncaughtErr => simp [addDocumentsWithRetry, addDocumentsWithRetry.go, h0, h1, h2]
      | transientErr e2 => simp [addDocumentsWithRetry, addDocumentsWithRetry.go, h0, h1, h2]

/-- Claim C4: with the default `max_retries = 3`, the store write is
attempted at most 3 times; the chunk list passed to the `k`-th attempt is
the original one with the URL regex `https?://\S+` substituted by `[URL]`
exactly `k` times (so every retry sees sanitized contents); and when all
three attempts fail with transient store errors, the error of the final
attempt is raised to the caller rather than swallowed. -/
theorem add_documents_retry_bounds (att : Nat → List Chunk → AttemptOutcome)
    (chunks : List Chunk) :
    (addDocumentsWithRetry att chunks 3).inputs.length ≤ 3 ∧
    (addDocumentsWithRetry att chunks 3).inputs =
      (List.range (addDocumentsWithRetry att chunks 3).inputs.length).map
        (fun k => sanitizeChunks^[k] chunks) ∧
    (∀ e0 e1 e2 : RetryableExc,
      att 0 chunks = .transientErr e0 →
      att 1 (sanitizeChunks chunks) = .transientErr e1 →
      att 2 (sanitizeChunks (sanitizeChunks chunks)) = .transientErr e2 →
      addDocumentsWithRetry att chunks 3 =
        { result := .raised e2,
          inputs := [chunks, sanitizeChunks chunks, sanitizeChunks (sanitizeChunks chunks)],
          sleeps := 2 }) := by
  have key := addDocumentsWithRetry_eq att chunks
  refine ⟨?_, ?_, ?_⟩
  · rw [key]
    cases h0 : att 0 chunks <;>
      cases h1 : att 1 (sanitizeChunks chunks) <;>
      cases h2 : att 2 (sanitizeChunks (sanitizeChunks chunks)) <;> simp
  · rw [key]
    cases h0 : att 0 chunks <;>
      cases h1 : att 1 (sanitizeChunks chunks) <;>
      cases h2 : att 2 (sanitizeChunks (sanitizeChunks chunks)) <;> rfl
  · intro e0 e1 e2 h0 h1 h2
    rw [h0, h1, h2] at key
    exact key

/-- Witness for C4: one chunk containing a URL, a store failing with
`ConnectionError` on all three attempts — the run makes exactly 3 attempts,
the second and third see the `[URL]`-redacted content, sleeps twice, and
raises the final attempt's error. -/
theorem add_documents_retry_bounds_witness :
    addDocumentsWithRetry (fun _ _ => .transientErr .connectionError)
        [{ content := "see https://x.com/a now" }] 3 =
      { result := .raised .connectionError,
        inputs := [[{ content := "see https://x.com/a now" }],
                   [{ content := "see [URL] now" }],
                   [{ content := "see [URL] now" }]],
        sleeps := 2 } := by
  have h := (add_documents_retry_bounds (fun _ _ => .transientErr .connectionError)
    [{ content := "see https://x.com/a now" }]).2.2
    .connectionError .connectionError .connectionError rfl rfl rfl
  rw [h]
  decide

/-- Helper: every entry built by `uploadEntries` carries the metadata of
one of the split chunks (the splitter copies each document's metadata). -/
theorem uploadEntries_go_meta_mem (i : Nat) (l : List (String × GMeta)) {e : VEntry}
    (he : e ∈ uploadEntries.go i l) : ∃ cm ∈ l, e.meta = cm.2 := by
  induction l generalizing i with
  | nil => simp [uploadEntries.go] at he
  | cons cm rest ih =>
    rw [uploadEntries.go] at he
    rcases List.mem_cons.mp he with h | h
    · exact ⟨cm, List.mem_cons_self cm rest, by rw [h]⟩
    · rcases ih (i + 1) h with ⟨cm', hmem, hmeta⟩
      exact ⟨cm', List.mem_cons_of_mem cm hmem, hmeta⟩

/-- Helper: every entry built by `uploadEntries` carries the metadata of
one of the input documents. -/
theorem uploadEntries_meta_mem (sp : String → List String) (docs : List GDoc) {e : VEntry}
    (he : e ∈ uploadEntries sp docs) : ∃ d ∈ docs, e.meta = d.meta := by
  rcases uploadEntries_go_meta_mem 0 _ he with ⟨cm, hmem, hmeta⟩
  rcases List.mem_flatMap.mp hmem with ⟨d, hd, hcm⟩
  rcases List.mem_map.mp hcm with ⟨c, _, hc⟩
  exact ⟨d, hd, by rw [hmeta, ← hc]⟩

/-- Helper: upserting one document preserves uniqueness of the stored ids. -/
theorem addDoc_id_nodup (s : List VEntry) (e : VEntry)
    (h : (s.map VEntry.id).Nodup) : ((addDoc s e).map VEntry.id).Nodup := by
  rw [addDoc, List.map_append]
  have hsub : List.Sublist ((s.filter (fun x => x.id ≠ e.id)).map VEntry.id)
      (s.map VEntry.id) := (List.filter_sublist s).map VEntry.id
  rw [List.nodup_append]
  refine ⟨h.sublist hsub, List.nodup_singleton _, ?_⟩
  intro a ha hb
  rcases List.mem_map.mp ha with ⟨x, hx, hxid⟩
  have hxne : x.id ≠ e.id := by simpa using List.of_mem_filter hx
  simp only [List.map_cons, List.map_nil, List.mem_singleton] at hb
  exact hxne (hxid.trans hb)

/-- Helper: the batched upsert `add_documents` preserves uniqueness of the
stored ids (regardless of duplicates inside the batch). -/
theorem addDocs_id_nodup (batch : List VEntry) :
    ∀ s : List VEntry, (s.map VEntry.id).Nodup → ((addDocs s batch).map VEntry.id).Nodup := by
  induction batch with
  | nil => intro s h; exact h
  | cons b bs ih => intro s h; exact ih (addDoc s b) (addDoc_id_nodup s b h)

/-- Helper: the dedup delete preserves uniqueness of the stored ids. -/
theorem deleteMany_id_nodup (t u : String) (s : List VEntry)
    (h : (s.map VEntry.id).Nodup) : ((deleteMany t u s).map VEntry.id).Nodup :=
  h.sublist ((List.filter_sublist s).map VEntry.id)

/-- Helper: right after the dedup delete, no stored entry matches the
dedup filter. -/
theorem deleteMany_filter_matches (t u : String) (s : List VEntry) :
    (deleteMany t u s).filter (fun e => matchesDedup t u e.meta) = [] := by
  rw [deleteMany, List.filter_filter]
  simp

/-- Helper: writing a batch of filter-matching entries with pairwise
distinct ids into a store whose filter-matching entries have ids disjoint
from the batch appends exactly the batch to the filter-matching part. -/
theorem addDocs_filter_batch (p : VEntry → Bool) (batch : List VEntry) :
    ∀ s : List VEntry,
      (∀ b ∈ batch, p b = true) →
      (batch.map VEntry.id).Nodup →
      (∀ e ∈ s, p e = true → e.id ∉ batch.map VEntry.id) →
      (addDocs s batch).filter p = s.filter p ++ batch := by
  induction batch with
  | nil => intro s _ _ _; simp [addDocs]
  | cons b bs ih =>
    intro s hmatch hnodup hdisj
    have hpb : p b = true := hmatch b (List.mem_cons_self b bs)
    have hbid : b.id ∉ bs.map VEntry.id := by
      have := hnodup
      rw [List.map_cons, List.nodup_cons] at this
      exact this.1
    have step : addDocs s (b :: bs) = addDocs (addDoc s b) bs := rfl
    rw [step, ih (addDoc s b)
      (fun x hx => hmatch x (List.mem_cons_of_mem b hx))
      (by rw [List.map_cons, List.nodup_cons] at hnodup; exact hnodup.2)
      ?_]
    · have hfilter : (addDoc s b).filter p =
          (s.filter (fun x => x.id ≠ b.id)).filter p ++ [b] := by
        rw [addDoc, List.filter_append]
        simp [hpb]
      have hcomm : (s.filter (fun x => x.id ≠ b.id)).filter p = s.filter p := by
        rw [List.filter_filter]
        have : (s.filter p).filter (fun x => x.id ≠ b.id) = s.filter p := by
          rw [List.filter_eq_self]
          intro a ha
          have hpa := List.of_mem_filter ha
          have hamem := List.mem_of_mem_filter ha
          have := hdisj a hamem hpa
          simp only [List.map_cons, List.mem_cons] at this
          simp only [decide_eq_true_eq]
          exact fun hne => this (Or.inl hne)
        rw [← this, List.filter_filter]
        apply List.filter_congr
        intro a _
        exact Bool.and_comm _ _
      rw [hfilter, hcomm, List.append_assoc]
      rfl
    · intro e he hpe
      rw [addDoc, List.mem_append] at he
      rcases he with he | he
      · have hemem := List.mem_of_mem_filter he
        have := hdisj e hemem hpe
        simp only [List.map_cons, List.mem_cons] at this
        exact fun hmem => this (Or.inr hmem)
      · rw [List.mem_singleton] at he
        rw [he]
        exact hbid

/-- Claim C1 (amended): the delete-then-write step of `collect` — for any
prior store contents with pairwise distinct ids, if every document of the
new generation carries the dedup metadata
(`threadId`/`type = "gmail"`/`userId`, as the body and non-calendar
attachment documents built by `_retrieve_content` do) and the new chunk
ids are pairwise distinct, then after the step the store's entries
matching the dedup filter are exactly the chunk set of this ingestion (all
prior-generation matching chunks were deleted first, including when the
new generation has fewer chunks), and the store holds no duplicate ids. -/
theorem gmail_dedup_delete_then_write (sp : String → List String) (t u : String)
    (docs : List GDoc) (store : List VEntry)
    (hmatch : ∀ d ∈ docs, matchesDedup t u d.meta = true)
    (hnodup : ((uploadEntries sp docs).map VEntry.id).Nodup)
    (hstore : (store.map VEntry.id).Nodup) :
    (ingestDocs sp t u docs store).filter (fun e => matchesDedup t u e.meta) =
      uploadEntries sp docs ∧
    ((ingestDocs sp t u docs store).map VEntry.id).Nodup := by
  constructor
  · rw [ingestDocs]
    rw [addDocs_filter_batch (fun e => matchesDedup t u e.meta) (uploadEntries sp docs)
      (deleteMany t u store) ?_ hnodup ?_]
    · rw [deleteMany_filter_matches]
      rfl
    · intro b hb
      rcases uploadEntries_meta_mem sp docs hb with ⟨d, hd, hmeta⟩
      show matchesDedup t u b.meta = true
      rw [hmeta]
      exact hmatch d hd
    · intro e he hpe
      have hpe' : matchesDedup t u e.meta = true := hpe
      have hfalse : matchesDedup t u e.meta = false := by
        have := List.of_mem_filter he
        simpa using this
      rw [hfalse] at hpe'
      cases hpe'
  · exact addDocs_id_nodup (uploadEntries sp docs) _ (deleteMany_id_nodup t u store hstore)

/-- Witness for C1 (amended): a source whose previous generation stored 3
chunks is re-ingested with a single new chunk; afterwards exactly that one
chunk matches the dedup filter and the store ids are duplicate-free. -/
theorem gmail_dedup_delete_then_write_witness :
    (ingestDocs c1Sp "t" "u@x" c1NewDocs c1OldStore).filter
        (fun e => matchesDedup "t" "u@x" e.meta) = uploadEntries c1Sp c1NewDocs ∧
    ((ingestDocs c1Sp "t" "u@x" c1NewDocs c1OldStore).map VEntry.id).Nodup :=
  gmail_dedup_delete_then_write c1Sp "t" "u@x" c1NewDocs c1OldStore
    (by decide) (by decide) (by decide)

/-- Counterexample for C1 as stated: a Gmail thread whose first-generation
message carries an `.ics` calendar attachment.  The calendar documents
built by `_retrieve_content` (src/app/services/gmail.py, lines 360-381)
get a fresh metadata dict without `threadId`/`type`/`userId`, so the dedup
delete filter of the next ingestion does not match them.  After a second,
successful ingestion of the same thread (its new latest message has plain
text only), the store still holds the first generation's calendar chunk in
addition to the new generation's single chunk — the store does not contain
exactly the chunk set of the most recent successful ingestion. -/
theorem gmail_dedup_invariant_counterexample :
    (collect c1EnvSecond).raised = none ∧
    ((collect c1EnvSecond).store).map VEntry.id = ["t-m1-cal.ics-h1-1", "t-m2-0"] ∧
    (uploadEntries c1Sp (retrieveContent "u@x" c1Msg2)).map VEntry.id = ["t-m2-0"] := by
  refine ⟨?_, ?_, ?_⟩ <;> decide


/-- Counterexample for C2 as stated: the store layer does not reject
mutation of a terminal task.  `upsert` applies `$set` to the matching
array element regardless of its stored status: applied to a task persisted
as `"completed"`, an update carrying `"pending"` simply rewrites the
status (and refreshes the timestamps) — the status even reverts to an
earlier state at the store layer. -/
theorem task_upsert_mutates_terminal_counterexample :
    upsertArr
      [{ id := "t1", status := some "completed", error := none,
         createdTime := some "2025/01/01 10:00:00",
         updatedTime := some "2025/01/01 10:00:00" }]
      { id := "t1", status := some "pending", error := none,
        createdTime := none, updatedTime := none }
      "2025/01/02 10:00:00" 100 =
      [{ id := "t1", status := some "pending", error := none,
         createdTime := some "2025/01/02 10:00:00",
         updatedTime := some "2025/01/02 10:00:00" }] := by
  decide

/-- Claim C2 (amended): the statuses the Gmail flow itself persists for a
task are monotone — the full persisted trace (`"pending"` at creation by
`trigger`/`__init__`, then the statuses written by `collect`) is a
subsequence of `pending, in progress, completed` or of
`pending, in progress, failed`, for every environment (any messages, any
store behaviour, any classifier) — but this monotonicity is enforced by
the callers, not by the store layer, which applies any update
unconditionally. -/
theorem task_status_trace_monotone (env : CollectEnv) :
    List.Sublist (gmailTaskStatusTrace env) ["pending", "in progress", "completed"] ∨
    List.Sublist (gmailTaskStatusTrace env) ["pending", "in progress", "failed"] := by
  unfold gmailTaskStatusTrace collect
  rcases h : collectLoop env 0 env.msgs env.store0 0 with ⟨store, raised, processed⟩
  cases raised with
  | none =>
    left
    simp only [finishCollect]
    exact List.Sublist.refl _
  | some e =>
    simp only [finishCollect]
    by_cases hc : caughtByCollect e = true
    · right
      rw [if_pos hc]
    · left
      rw [if_neg hc]
      exact List.sublist_append_left ["pending", "in progress"] ["completed"]

/-- Counterexample for C3 as stated: when the store write fails,
`collect` persists the task's status as `"failed"` but never writes the
error message onto the task record (`task["error"]` stays absent; compare
`load_pdf` in src/app/controllers/loader.py, line 187, which does set it).
Here the write fails with `ConnectionError`: the task ends `"failed"`
with no error message, and the exception is re-raised. -/
theorem collect_failed_without_error_message_counterexample :
    (collect c3Env).taskStatus = "failed" ∧
    (collect c3Env).taskError = none ∧
    (collect c3Env).raised = some .connectionError := by
  refine ⟨?_, ?_, ?_⟩ <;> decide

/-- Claim C3 (amended): for every exception class handled by `collect`'s
`except` clauses (`ConnectionError`, `TimeoutError`, `OSError`/`IOError`,
`ValueError` — including astrapy's `DataAPIResponseException`, which
derives from `ValueError` —, `TypeError`, `KeyError`, `IndexError`), a
store-write failure propagates out of the upload step (the exception is
re-raised to the task runner) and the task is persisted as `"failed"`,
though without the error message. -/
theorem store_error_marks_task_failed (env : CollectEnv) :
    (∀ e : UploadExc, (collect env).raised = some e → caughtByCollect e = true →
      (collect env).taskStatus = "failed" ∧
      (collect env).statuses = ["in progress", "failed"] ∧
      (collect env).taskError = none) ∧
    (∀ (m : GMsg) (e : UploadExc), env.msgs = [m] →
      0 < (relevanceStage env.topics env.beh (retrieveContent env.profileEmail m)).length →
      env.uploadErr 0 = some e →
      (collect env).raised = some e) := by
  constructor
  · intro e hraised hcaught
    rcases h : collectLoop env 0 env.msgs env.store0 0 with ⟨store, raised, processed⟩
    have hkey : collect env = finishCollect (store, raised, processed) := by
      unfold collect
      rw [h]
    rw [hkey] at hraised ⊢
    cases raised with
    | none => simp [finishCollect] at hraised
    | some f =>
      simp only [finishCollect] at hraised ⊢
      by_cases hc : caughtByCollect f = true
      · rw [if_pos hc] at hraised ⊢
        simp at hraised
        subst hraised
        exact ⟨rfl, rfl, rfl⟩
      · rw [if_neg hc] at hraised
        simp at hraised
        subst hraised
        exact absurd hcaught hc
  · intro m e hmsgs hlen hfail
    unfold collect
    have hloop : collectLoop env 0 env.msgs env.store0 0 =
        (deleteMany m.threadId env.email env.store0, some e, 1) := by
      rw [hmsgs]
      simp only [collectLoop]
      rw [if_pos hlen, hfail]
    rw [hloop]
    simp only [finishCollect]
    cases hcc : caughtByCollect e <;> simp [hcc]

/-- Witness for C3 (amended): the `ConnectionError` run of `c3Env` — the
exception propagates out of `collect` and the task is persisted
`"failed"` with no error message. -/
theorem store_error_marks_task_failed_witness :
    (collect c3Env).raised = some .connectionError ∧
    (collect c3Env).taskStatus = "failed" ∧
    (collect c3Env).statuses = ["in progress", "failed"] ∧
    (collect c3Env).taskError = none := by
  have hraised := (store_error_marks_task_failed c3Env).2 c3Msg .connectionError
    rfl (by decide) rfl
  have hfailed := (store_error_marks_task_failed c3Env).1 .connectionError hraised (by decide)
  exact ⟨hraised, hfailed⟩

/-- Claim C9: when the configured topic list is empty, the relevance-filter
stage of `GmailService.collect` is a no-op: the guard
`len(query.get("topics", [])) > 0` is false, `check_relevance` is never
invoked, and the document list is returned unchanged whatever the
classifier oracle would have answered. -/
theorem relevance_stage_empty_topics_noop {α : Type} (beh : Nat → Nat → COutcome)
    (documents : List α) :
    relevanceStage [] beh documents = documents := by
  simp [relevanceStage]

/-- Counterexample for C6 as stated: `check_image` of
src/app/controllers/loader.py (used by `load_pdf` to decide OCR) performs
no area test — a page whose only embedded image covers `1/10000` of the
page area is classified image-dominant, although no image's pixel area
exceeds `0.7` of the page area. -/
theorem pdf_image_dominance_counterexample :
    loaderCheckImage c6SmallImagePage = true ∧
    ¬ ∃ o ∈ pageXObjects c6SmallImagePage, o.subtype = "/Image" ∧
        o.width * o.height /
          (c6SmallImagePage.mediaboxWidth * c6SmallImagePage.mediaboxHeight) >
          (7 : ℚ) / 10 := by
  constructor
  · decide
  · simp only [pageXObjects, c6SmallImagePage, Option.getD_some, List.mem_singleton]
    rintro ⟨o, ho, -, hgt⟩
    rw [ho] at hgt
    norm_num at hgt

/-- Claim C6 (amended): `PDFLoader._check_image` (src/app/controllers/file.py)
with a supplied page area classifies a page image-dominant exactly when
some image XObject's pixel area is at least (`>=`, not strictly above) the
threshold times the page area; on the 2-page scenario (page 1 with a 90%
image, page 2 plain text) `PDFLoader.load` makes exactly one OCR call (for
page 1) and yields 2 documents, page 2 using native text extraction.  The
`check_image` of src/app/controllers/loader.py instead classifies a page
image-dominant exactly when it contains any image XObject, regardless of
area. -/
theorem pdf_image_dominance :
    (∀ (p : PdfPage) (area θ : ℚ),
      pdfLoaderCheckImage p (some area) θ = true ↔
        ∃ o ∈ pageXObjects p, o.subtype = "/Image" ∧ o.width * o.height / area ≥ θ) ∧
    (∀ p : PdfPage,
      loaderCheckImage p = true ↔ ∃ o ∈ pageXObjects p, o.subtype = "/Image") ∧
    (∀ ocr : Nat → String,
      pdfLoad ocr [c6ImagePage, c6TextPage] =
        ([{ content := ocr 0, page := 1 }, { content := "plain text page", page := 2 }], 1)) := by
  refine ⟨?_, ?_, ?_⟩
  · intro p area θ
    rcases p with ⟨res, w, hgt, txt⟩
    cases res with
    | none => simp [pdfLoaderCheckImage, pageXObjects]
    | some r =>
      rcases r with ⟨xo⟩
      cases xo with
      | none => simp [pdfLoaderCheckImage, pageXObjects]
      | some xs =>
        simp [pdfLoaderCheckImage, pageXObjects, List.any_eq_true, decide_eq_true_eq]
  · intro p
    rcases p with ⟨res, w, hgt, txt⟩
    cases res with
    | none => simp [loaderCheckImage, pageXObjects]
    | some r =>
      rcases r with ⟨xo⟩
      cases xo with
      | none => simp [loaderCheckImage, pageXObjects]
      | some xs => simp [loaderCheckImage, pageXObjects, List.any_eq_true]
  · intro ocr
    have h1 : pdfLoaderCheckImage c6ImagePage
        (some (c6ImagePage.mediaboxWidth * c6ImagePage.mediaboxHeight)) ((7 : ℚ) / 10) =
        true := by
      simp only [pdfLoaderCheckImage, c6ImagePage, List.any_cons, List.any_nil,
        Bool.or_false, Bool.and_eq_true, decide_eq_true_eq]
      norm_num
    have h2 : pdfLoaderCheckImage c6TextPage
        (some (c6TextPage.mediaboxWidth * c6TextPage.mediaboxHeight)) ((7 : ℚ) / 10) =
        false := by
      simp [pdfLoaderCheckImage, c6TextPage]
    simp [pdfLoad, pdfLoad.go, h1, h2]
    rfl

/-- Helper for C8: the per-document entries of `upload` pair each chunk,
in order, with the id the spec's scheme prescribes (shifted by the
starting index `i`). -/
theorem loaderDocEntries_snd (h : String → String) (email : String) (d : SrcDoc) :
    ∀ (texts : List String) (i : Nat),
      (loaderDocEntries h email d i texts).map Prod.snd =
        (List.range texts.length).map
          (fun j => specChunkId h email (attachmentName d) d.page (i + j)) := by
  intro texts
  induction texts with
  | nil => intro i; simp [loaderDocEntries]
  | cons t ts ih =>
    intro i
    rw [loaderDocEntries]
    simp only [List.map_cons, List.length_cons, List.range_succ_eq_map, List.map_map,
      List.cons.injEq]
    constructor
    · cases hp : d.page <;> simp [specChunkId, hp]
    · rw [ih (i + 1)]
      apply List.map_congr_left
      intro j _
      have harith : i + 1 + j = i + (j + 1) := by omega
      simp [Function.comp, harith]

/-- Helper for C8: the ordered id list of the file-upload path equals the
spec scheme applied per document and per chunk index. -/
theorem loaderUpload_ids (h : String → String) (sp : String → List String) (email : String) :
    ∀ docs : List SrcDoc,
      (loaderUpload h sp email docs).map Prod.snd =
        docs.flatMap (fun d =>
          (List.range (sp d.content).length).map
            (fun i => specChunkId h email (attachmentName d) d.page i)) := by
  intro docs
  induction docs with
  | nil => rfl
  | cons d ds ih =>
    rw [loaderUpload] at ih ⊢
    rw [List.flatMap_cons, List.flatMap_cons, List.map_append, ih,
      loaderDocEntries_snd h email d (sp d.content) 0]
    simp

/-- Helper for C8: the ids built by `VectorStore.upload` over the global
chunk enumeration — the `k`-th id is the `k`-th chunk's metadata id
followed by `-` and the index, shifted by the starting index `i`. -/
theorem uploadEntries_go_id (l : List (String × GMeta)) :
    ∀ (i k : Nat), ((uploadEntries.go i l).map VEntry.id).get? k =
      (l.get? k).map (fun cm => cm.2.id ++ "-" ++ toString (i + k)) := by
  induction l with
  | nil => intro i k; simp [uploadEntries.go]
  | cons cm rest ih =>
    intro i k
    cases k with
    | zero => simp [uploadEntries.go]
    | succ k' =>
      rw [uploadEntries.go]
      simp only [List.map_cons, List.get?_cons_succ]
      rw [ih (i + 1) k']
      have : i + 1 + k' = i + (k' + 1) := by omega
      rw [this]

/-- Claim C8: (i) in the file-upload path (`upload` of
src/app/controllers/loader.py), the ordered id list equals, document by
document and chunk by chunk, the spec's scheme `specChunkId` — base hash
of `email + attachment` followed by `-chunkIndex`, or
`-page-chunkIndex` when the document carries a page number — so the ids
are a function of the source content alone and two runs over byte-identical
input produce identical ordered id lists; (ii) in the Gmail path
(`VectorStore.upload` of src/app/models/db/astra.py), the `k`-th id is the
`k`-th chunk's deterministic metadata id followed by `-k`; (iii) writing a
batch through the id-keyed upsert never creates duplicate ids, so
re-upserting identical ids overwrites rather than duplicates. -/
theorem chunk_id_scheme (h : String → String) (sp : String → List String) (email : String)
    (docs : List SrcDoc) :
    (loaderUpload h sp email docs).map Prod.snd =
      docs.flatMap (fun d =>
        (List.range (sp d.content).length).map
          (fun i => specChunkId h email (attachmentName d) d.page i)) ∧
    (∀ (docs2 : List GDoc) (k : Nat),
      ((uploadEntries sp docs2).map VEntry.id).get? k =
        (((docs2.flatMap (fun d => (sp d.content).map (fun c => (c, d.meta)))).get? k).map
          (fun cm => cm.2.id ++ "-" ++ toString k))) ∧
    (∀ (store batch : List VEntry), (store.map VEntry.id).Nodup →
      ((addDocs store batch).map VEntry.id).Nodup) := by
  refine ⟨?_, ?_, ?_⟩
  · exact loaderUpload_ids h sp email docs
  · intro docs2 k
    rw [uploadEntries, uploadEntries_go_id]
    simp
  · intro store batch hn
    exact addDocs_id_nodup batch store hn

/-- Witness for C8: two concrete documents (one paged, one not) under a
concrete hash and a 2-chunk splitter produce exactly the spec-scheme id
list, and re-upserting over an existing id keeps the stored ids
duplicate-free. -/
theorem chunk_id_scheme_witness :
    (loaderUpload (fun s => "H" ++ s) (fun s => [s, s]) "u"
        [{ content := "body", source := "\x7bFOLDER\x7d/report.pdf", page := some 2 },
         { content := "raw", source := "notes.txt", page := none }]).map Prod.snd =
      ["Hureport.pdf-2-0", "Hureport.pdf-2-1", "Hunotes.txt-0", "Hunotes.txt-1"] ∧
    ((addDocs
        [{ id := "a-0", content := "x",
           meta := { threadId := none, mtype := none, userId := none,
                     mimeType := none, attachment := none, id := "a" } }]
        [{ id := "a-0", content := "y",
           meta := { threadId := none, mtype := none, userId := none,
                     mimeType := none, attachment := none, id := "a" } },
         { id := "a-1", content := "z",
           meta := { threadId := none, mtype := none, userId := none,
                     mimeType := none, attachment := none, id := "a" } }]).map
      VEntry.id).Nodup := by
  constructor
  · have hids := (chunk_id_scheme (fun s => "H" ++ s) (fun s => [s, s]) "u"
      [{ content := "body", source := "\x7bFOLDER\x7d/report.pdf", page := some 2 },
       { content := "raw", source := "notes.txt", page := none }]).1
    rw [hids]
    decide
  · exact (chunk_id_scheme (fun s => "H" ++ s) (fun s => [s, s]) "u" []).2.2 _ _ (by decide)

/-- Claim C10: `check_relevance` always returns a subsequence of its input
list — every returned document is one of the input occurrences, each input
occurrence contributes at most one output occurrence, and the input order
is preserved — for every classifier behaviour (verdicts, rate limits, or
errors). -/
theorem check_relevance_sublist {α : Type} (beh : Nat → Nat → COutcome)
    (documents : List α) :
    List.Sublist (checkRelevance beh documents) documents :=
  checkRelevance_go_sublist beh documents 0

end KnowledgeBase
